import Mathlib

/-!
Verification of the EduPulse quiz backend against its natural-language
specification.  The Python source (Django REST framework views and utility
functions) is shallowly embedded: pure helpers become Lean functions over
`ℤ`/`ℚ`/`List`, the database is an explicit record of lists of rows, and
each view handler is a function from request data and a database state to a
response together with the successor state.  All numeric values that the
source manipulates as Python numbers are modelled exactly with `ℚ`.
-/

namespace EduPulse

/-! ## Rounding

Python's builtin `round(x, 2)` rounds to two decimal places with ties going
to the nearest even last digit.  We model it exactly over `ℚ`. -/

/-- Round a rational to the nearest integer, ties to even
(the semantics of Python's builtin `round`). -/
def roundHalfEven (x : ℚ) : ℤ :=
  let f : ℤ := ⌊x⌋
  let r : ℚ := x - f
  if r < 1/2 then f
  else if 1/2 < r then f + 1
  else if f % 2 = 0 then f else f + 1

/-- Python's `round(x, 2)`. -/
def round2 (x : ℚ) : ℚ := (roundHalfEven (x * 100) : ℚ) / 100

theorem round2_zero : round2 0 = 0 := by
  simp [round2, roundHalfEven]

/-! ## `common/utils.py`: `calculate_score`

`calculate_score(correct_answers, total_questions, time_taken, time_limit,
difficulty_bonus)` from `src/common/utils.py`.  `time_limit` is an optional
number of minutes (`None` ↦ `Option.none`); Python's `if time_limit:`
truthiness test is false for both `None` and `0`. -/

/-- The time-efficiency bonus computed inside `calculate_score`:
`0` unless a truthy `time_limit` is given and `time_taken` is strictly
below `time_limit * 60` seconds, in which case the bonus is
`min(time_efficiency * 10, 10)`. -/
def timeBonus (time_taken : ℤ) : Option ℤ → ℚ
  | none => 0
  | some tl =>
    if tl = 0 then 0
    else if time_taken < tl * 60 then
      min ((((tl : ℚ) * 60 - (time_taken : ℚ)) / ((tl : ℚ) * 60)) * 10) 10
    else 0

/-- `calculate_score` from `src/common/utils.py`: returns `0` when
`total_questions = 0`, otherwise clamps the rounded
`(accuracy + time_bonus) * difficulty_bonus` into `[0, 100]`. -/
def calculate_score (correct_answers total_questions time_taken : ℤ)
    (time_limit : Option ℤ) (difficulty_bonus : ℚ) : ℚ :=
  if total_questions = 0 then 0
  else
    let accuracy_score : ℚ := ((correct_answers : ℚ) / (total_questions : ℚ)) * 100
    let final_score : ℚ := (accuracy_score + timeBonus time_taken time_limit) * difficulty_bonus
    max 0 (min 100 (round2 final_score))

/-- Modelled from the spec claim's words: the closed-form time bonus
`min(10 * (time_limit*60 - time_taken)/(time_limit*60), 10.0)` when
`time_limit` is set and `time_taken < time_limit*60`, else `0.0`. -/
def specTimeBonus (time_taken : ℤ) : Option ℤ → ℚ
  | none => 0
  | some tl =>
    if time_taken < tl * 60 then
      min (10 * ((tl : ℚ) * 60 - (time_taken : ℚ)) / ((tl : ℚ) * 60)) 10
    else 0

/-- Modelled from the spec claim's words: the closed-form value
`clamp(round((correct_answers/total_questions*100 + time_bonus) * difficulty_bonus, 2), 0.0, 100.0)`. -/
def calculate_score_spec (correct_answers total_questions time_taken : ℤ)
    (time_limit : Option ℤ) (difficulty_bonus : ℚ) : ℚ :=
  max 0 (min 100 (round2
    (((correct_answers : ℚ) / (total_questions : ℚ) * 100
      + specTimeBonus time_taken time_limit) * difficulty_bonus)))

theorem timeBonus_eq_specTimeBonus (time_taken : ℤ) (time_limit : Option ℤ) :
    timeBonus time_taken time_limit = specTimeBonus time_taken time_limit := by
  cases time_limit with
  | none => rfl
  | some tl =>
    by_cases h0 : tl = 0
    · subst h0
      have hL : timeBonus time_taken (some 0) = 0 := by simp [timeBonus]
      have hR : specTimeBonus time_taken (some 0) = 0 := by
        simp only [specTimeBonus]
        by_cases hlt : time_taken < (0 : ℤ) * 60
        · rw [if_pos hlt]
          norm_num
        · rw [if_neg hlt]
      rw [hL, hR]
    · simp only [timeBonus, specTimeBonus, if_neg h0]
      by_cases hlt : time_taken < tl * 60
      · rw [if_pos hlt, if_pos hlt]
        congr 1
        ring
      · rw [if_neg hlt, if_neg hlt]

/-- C1: for `total_questions > 0`, `calculate_score` equals the closed-form
clamp/round formula of its five arguments given in the spec (with the
spec-side time bonus), hence is a pure arithmetic function of them. -/
theorem calculate_score_closed_form (ca tq tt : ℤ) (tl : Option ℤ) (db : ℚ)
    (h : 0 < tq) :
    calculate_score ca tq tt tl db = calculate_score_spec ca tq tt tl db := by
  have htq : tq ≠ 0 := ne_of_gt h
  simp only [calculate_score, calculate_score_spec, if_neg htq,
    timeBonus_eq_specTimeBonus]

/-- Witness for C1 at a concrete input. -/
theorem calculate_score_closed_form_witness :
    (0 : ℤ) < 4 ∧
      calculate_score 3 4 30 (some 1) 1 = calculate_score_spec 3 4 30 (some 1) 1 :=
  ⟨by norm_num, calculate_score_closed_form 3 4 30 (some 1) 1 (by norm_num)⟩

/-- C6: `calculate_score` is total on all argument values and its result
always lies in `[0, 100]`; it is exactly `0` when `total_questions = 0`. -/
theorem calculate_score_bounded (ca tq tt : ℤ) (tl : Option ℤ) (db : ℚ)
    (htq : 0 ≤ tq) (hdb : 0 ≤ db) :
    0 ≤ calculate_score ca tq tt tl db ∧ calculate_score ca tq tt tl db ≤ 100 ∧
      (tq = 0 → calculate_score ca tq tt tl db = 0) := by
  refine ⟨?_, ?_, ?_⟩
  · by_cases h : tq = 0
    · simp [calculate_score, h]
    · simp only [calculate_score, if_neg h]
      exact le_max_left 0 _
  · by_cases h : tq = 0
    · simp [calculate_score, h]
    · simp only [calculate_score, if_neg h]
      exact max_le (by norm_num) (min_le_left _ _)
  · intro h
    simp [calculate_score, h]

/-- Witness for C6 at a concrete input. -/
theorem calculate_score_bounded_witness :
    (0 : ℤ) ≤ 4 ∧ (0 : ℚ) ≤ 1 ∧
      (0 ≤ calculate_score 3 4 30 (some 1) 1 ∧
        calculate_score 3 4 30 (some 1) 1 ≤ 100 ∧
        ((4 : ℤ) = 0 → calculate_score 3 4 30 (some 1) 1 = 0)) :=
  ⟨by norm_num, by norm_num, calculate_score_bounded 3 4 30 (some 1) 1 (by norm_num) (by norm_num)⟩

/-! ## Data model (`quizzes/models.py`)

Rows of the tables used by the verified code paths.  Text columns that no
verified property mentions (`choice_text`, `question_text`, sanitized
free-text answers, feedback) are elided from the row records. -/

/-- A row of the `choices` table. -/
structure Choice where
  id : ℕ
  is_correct : Bool
deriving DecidableEq, Repr

/-- A row of the `questions` table, with its choices inlined. -/
structure Question where
  id : ℕ
  question_type : String
  points : ℤ
  is_required : Bool
  choices : List Choice
deriving DecidableEq, Repr

/-- A row of the `quizzes` table, with its questions inlined.
`time_limit` is in minutes and nullable. -/
structure Quiz where
  id : ℕ
  is_active : Bool
  time_limit : Option ℤ
  passing_score : ℤ
  questions : List Question
deriving DecidableEq, Repr

/-- A row of the `quiz_attempts` table.  Timestamps are in seconds. -/
structure Attempt where
  user_id : ℕ
  quiz_id : ℕ
  started_at : ℤ
  completed_at : Option ℤ
  score : Option ℚ
  is_passed : Bool
  time_taken : Option ℤ
deriving DecidableEq, Repr

/-- A row of the `quiz_responses` table (keyed by attempt and question;
an attempt is keyed by user and quiz). -/
structure QResponse where
  user_id : ℕ
  quiz_id : ℕ
  question_id : ℕ
  selected_choice_ids : List ℕ
  is_correct : Option Bool
  points_earned : ℚ
deriving DecidableEq, Repr

/-- The stored state: all table contents relevant to the verified views. -/
structure DB where
  quizzes : List Quiz
  users : List ℕ
  attempts : List Attempt
  responses : List QResponse
deriving DecidableEq, Repr

/-- One element of the submitted `answers` list.  A missing or JSON-null
`question_id` is `none`; Python's `if not question_id:` also treats `0` as
missing. -/
structure Answer where
  question_id : Option ℕ
  selected_choice_ids : List ℕ
  text_answer : String
deriving DecidableEq, Repr

/-! ## Grading a single answer

The grading branch shared by `SubmitQuizView.post` and `SaveAnswerView.post`
(`src/quizzes/views/submit_quiz.py`): when the answer selects at least one
choice, the response's `is_correct` is the set equality between the selected
choices that belong to the question and the question's choices flagged
`is_correct`; otherwise (including `short_answer`/`essay` questions)
`is_correct` is left `None`. -/

/-- The value stored into `response.is_correct` by the grading branch. -/
def gradeAnswer (q : Question) (selected_choice_ids : List ℕ) : Option Bool :=
  if selected_choice_ids.isEmpty then none
  else
    let selected_choices := q.choices.filter (fun c => decide (c.id ∈ selected_choice_ids))
    let correct_choices := q.choices.filter (fun c => c.is_correct)
    some (decide (selected_choices.toFinset = correct_choices.toFinset))

/-- C2: with at least one selected choice, the response is marked correct
iff the set of selected choices belonging to the question equals the set of
the question's choices flagged `is_correct`; with no selected choices the
response is marked neither correct nor incorrect. -/
theorem gradeAnswer_set_equality (q : Question) (ids : List ℕ) :
    (ids ≠ [] →
      (gradeAnswer q ids = some true ↔
        q.choices.toFinset.filter (fun c => c.id ∈ ids)
          = q.choices.toFinset.filter (fun c => c.is_correct = true))) ∧
    (ids = [] → gradeAnswer q ids = none) := by
  constructor
  · intro hne
    have hids : ids.isEmpty = false := by
      simp [List.isEmpty_iff, hne]
    simp only [gradeAnswer, hids, Bool.false_eq_true, if_false, Option.some.injEq,
      decide_eq_true_eq]
    rw [Finset.ext_iff, Finset.ext_iff]
    simp [List.mem_filter]
  · intro h
    subst h
    rfl

/-- Witness for C2 at a concrete question and selection. -/
theorem gradeAnswer_set_equality_witness :
    gradeAnswer ⟨7, "multiple_choice", 1, true, [⟨1, true⟩, ⟨2, false⟩]⟩ [1] = some true :=
  ((gradeAnswer_set_equality ⟨7, "multiple_choice", 1, true, [⟨1, true⟩, ⟨2, false⟩]⟩ [1]).1
    (by decide)).mpr (by decide)

/-! ## `common/utils.py`: `validate_quiz_submission` -/

/-- Result dictionary of `validate_quiz_submission`. -/
structure ValidationResult where
  valid : Bool
  errors : List String
  warnings : List String
deriving DecidableEq, Repr

/-- The warning text for an unanswered question. -/
def noAnswerWarning (qid : ℕ) : String :=
  "No answer provided for question " ++ toString qid

/-- The warning text for unanswered required questions. -/
def missingWarning (missing : List ℕ) : String :=
  "Missing answers for required questions: "
    ++ String.intercalate ", " (missing.map toString)

/-- The loop body of `validate_quiz_submission`: accumulate errors,
warnings and the set of answered question ids over one submitted answer.
A falsy `question_id` (absent or `0`) records an error and skips the rest
of the iteration (`continue` in the source). -/
def validateStep (acc : List String × List String × List ℕ) (ans : Answer) :
    List String × List String × List ℕ :=
  match ans.question_id with
  | none => (acc.1 ++ ["Missing question_id in answer"], acc.2.1, acc.2.2)
  | some 0 => (acc.1 ++ ["Missing question_id in answer"], acc.2.1, acc.2.2)
  | some qid =>
    let warns :=
      if ans.selected_choice_ids.isEmpty && ans.text_answer.isEmpty then
        acc.2.1 ++ [noAnswerWarning qid]
      else acc.2.1
    (acc.1, warns, acc.2.2 ++ [qid])

/-- `validate_quiz_submission` from `src/common/utils.py`.  The early
returns of the source become the nested branches; `now` stands for
`timezone.now()` in seconds. -/
def validate_quiz_submission (answers : List Answer) (quiz_id user_id : ℕ)
    (db : DB) (now : ℤ) : ValidationResult :=
  match db.quizzes.find? (fun q => q.id == quiz_id) with
  | none => ⟨false, ["Invalid quiz or user"], []⟩
  | some quiz =>
    if !(db.users.contains user_id) then ⟨false, ["Invalid quiz or user"], []⟩
    else if answers.isEmpty then ⟨false, ["No answers provided"], []⟩
    else if (db.attempts.find? (fun a =>
        a.user_id == user_id && a.quiz_id == quiz_id && a.completed_at.isSome)).isSome then
      ⟨false, ["Quiz has already been submitted"], []⟩
    else
      let active := db.attempts.find? (fun a =>
        a.user_id == user_id && a.quiz_id == quiz_id && a.completed_at.isNone)
      let timeExceeded : Bool :=
        match active, quiz.time_limit with
        | some a, some tl => tl != 0 && decide (now - a.started_at > tl * 60)
        | _, _ => false
      if timeExceeded then ⟨false, ["Time limit exceeded"], []⟩
      else
        let res := answers.foldl validateStep ([], [], [])
        let required := (quiz.questions.filter (fun q => q.is_required)).map (fun q => q.id)
        let missing := required.filter (fun i => !(res.2.2.contains i))
        let warns := if missing.isEmpty then res.2.1 else res.2.1 ++ [missingWarning missing]
        ⟨res.1.isEmpty, res.1, warns⟩

/-- C8: the result of `validate_quiz_submission` is valid exactly when its
error list is empty (warnings never invalidate a submission). -/
theorem validate_valid_iff_no_errors (answers : List Answer) (quiz_id user_id : ℕ)
    (db : DB) (now : ℤ) :
    ((validate_quiz_submission answers quiz_id user_id db now).valid = true ↔
      (validate_quiz_submission answers quiz_id user_id db now).errors = []) := by
  unfold validate_quiz_submission
  split
  · simp
  · split
    · simp
    · split
      · simp
      · split
        · simp
        · simp only [List.isEmpty_iff]
          split
          · simp
          · simp [List.isEmpty_iff]

/-! ## `quizzes/views/submit_quiz.py`: `SubmitQuizView.post`

The handler runs inside `@transaction.atomic`, so a 404 raised while
processing an answer (unknown question id) rolls every write back: the
resulting state is the original database. -/

/-- Outcome of `SubmitQuizView.post`: the 404 of `get_object_or_404`, the
400 validation-failure response carrying the validation errors, or the 200
success response. -/
inductive SubmitResult where
  | notFound : SubmitResult
  | invalid : List String → SubmitResult
  | ok : ℚ → Bool → ℕ → ℕ → SubmitResult
deriving DecidableEq, Repr

/-- HTTP status of a `SubmitResult`. -/
def statusOf : SubmitResult → ℕ
  | .notFound => 404
  | .invalid _ => 400
  | .ok _ _ _ _ => 200

/-- Replace the stored response for `(user, quiz, question)` or append it
(the update half of `QuizResponse.objects.get_or_create` + `save`). -/
def upsertResponse (rs : List QResponse) (r : QResponse) : List QResponse :=
  if rs.any (fun x => x.user_id == r.user_id && x.quiz_id == r.quiz_id
      && x.question_id == r.question_id) then
    rs.map (fun x =>
      if x.user_id == r.user_id && x.quiz_id == r.quiz_id
          && x.question_id == r.question_id then r else x)
  else rs ++ [r]

/-- Replace the stored attempt row for `(user, quiz)`. -/
def updateAttempt (rows : List Attempt) (user_id quiz_id : ℕ) (a : Attempt) :
    List Attempt :=
  rows.map (fun x => if x.user_id == user_id && x.quiz_id == quiz_id then a else x)

/-- The answer-processing loop of `SubmitQuizView.post`: grade and store
each response, accumulating `(db, total_points, points_earned,
correct_answers)`.  `none` models the 404 raised by `get_object_or_404`
when an answer names no question of the quiz. -/
def processAnswers (quiz : Quiz) (user_id quiz_id : ℕ) :
    List Answer → DB × ℤ × ℤ × ℕ → Option (DB × ℤ × ℤ × ℕ)
  | [], acc => some acc
  | ans :: rest, (db, total_points, points_earned, correct_answers) =>
    match ans.question_id with
    | none => none
    | some qid =>
      match quiz.questions.find? (fun q => q.id == qid) with
      | none => none
      | some question =>
        let existing := db.responses.find? (fun r =>
          r.user_id == user_id && r.quiz_id == quiz_id && r.question_id == qid)
        let resp0 : QResponse := match existing with
          | some r => r
          | none => ⟨user_id, quiz_id, qid, [], none, 0⟩
        let resp1 : QResponse :=
          { resp0 with
              selected_choice_ids :=
                if ans.selected_choice_ids.isEmpty then resp0.selected_choice_ids
                else (question.choices.filter
                  (fun c => decide (c.id ∈ ans.selected_choice_ids))).map (fun c => c.id),
              is_correct := gradeAnswer question ans.selected_choice_ids }
        let isC : Bool := resp1.is_correct == some true
        let resp2 := { resp1 with points_earned := if isC then (question.points : ℚ) else 0 }
        let db' := { db with responses := upsertResponse db.responses resp2 }
        processAnswers quiz user_id quiz_id rest
          (db', total_points + question.points,
            (if isC then points_earned + question.points else points_earned),
            (if isC then correct_answers + 1 else correct_answers))

/-- `SubmitQuizView.post` from `src/quizzes/views/submit_quiz.py`:
look up the active quiz (404 otherwise), validate the submission (400 with
the errors otherwise), then get-or-create the attempt, grade every answer,
compute the score with `calculate_score` and store the completed attempt. -/
def submitQuizPost (db : DB) (user_id quiz_id : ℕ) (answers : List Answer)
    (now : ℤ) : SubmitResult × DB :=
  match db.quizzes.find? (fun q => q.id == quiz_id && q.is_active) with
  | none => (.notFound, db)
  | some quiz =>
    let validation := validate_quiz_submission answers quiz_id user_id db now
    if !validation.valid then (.invalid validation.errors, db)
    else
      let attemptAndDb : Attempt × DB :=
        match db.attempts.find? (fun a => a.user_id == user_id && a.quiz_id == quiz_id) with
        | some a => (a, db)
        | none =>
          let a : Attempt := ⟨user_id, quiz_id, now, none, none, false, none⟩
          (a, { db with attempts := db.attempts ++ [a] })
      let attempt := attemptAndDb.1
      let db1 := attemptAndDb.2
      let time_taken_seconds := now - attempt.started_at
      match processAnswers quiz user_id quiz_id answers (db1, 0, 0, 0) with
      | none => (.notFound, db)
      | some (db2, _total_points, _points_earned, correct_answers) =>
        let total_questions := quiz.questions.length
        let score := calculate_score (correct_answers : ℤ) (total_questions : ℤ)
          time_taken_seconds quiz.time_limit 1
        let passed : Bool := decide ((quiz.passing_score : ℚ) ≤ score)
        let att' := { attempt with
          score := some score, is_passed := passed,
          completed_at := some now, time_taken := some time_taken_seconds }
        let db3 := { db2 with attempts := updateAttempt db2.attempts user_id quiz_id att' }
        (.ok score passed correct_answers total_questions, db3)

/-- C7: when the quiz lookup succeeds but validation fails, the handler
answers HTTP 400 carrying exactly the validation errors and leaves the
stored state unchanged. -/
theorem submitQuiz_validation_failure (db : DB) (user_id quiz_id : ℕ)
    (answers : List Answer) (now : ℤ) (quiz : Quiz)
    (hq : db.quizzes.find? (fun q => q.id == quiz_id && q.is_active) = some quiz)
    (hv : (validate_quiz_submission answers quiz_id user_id db now).valid = false) :
    submitQuizPost db user_id quiz_id answers now
        = (.invalid (validate_quiz_submission answers quiz_id user_id db now).errors, db)
      ∧ statusOf (submitQuizPost db user_id quiz_id answers now).1 = 400 := by
  have h1 : submitQuizPost db user_id quiz_id answers now
      = (.invalid (validate_quiz_submission answers quiz_id user_id db now).errors, db) := by
    unfold submitQuizPost
    rw [hq]
    simp [hv]
  exact ⟨h1, by rw [h1]; rfl⟩

/-- A one-quiz database whose user table is empty, used as concrete input
for the C7 witness: any submission fails validation on it. -/
def dbW : DB := ⟨[⟨1, true, none, 70, []⟩], [], [], []⟩

/-- Witness for C7 at a concrete database and request. -/
theorem submitQuiz_validation_failure_witness :
    submitQuizPost dbW 5 1 [⟨some 3, [], "x"⟩] 0
        = (.invalid ["Invalid quiz or user"], dbW)
      ∧ statusOf (submitQuizPost dbW 5 1 [⟨some 3, [], "x"⟩] 0).1 = 400 := by
  have h := submitQuiz_validation_failure dbW 5 1 [⟨some 3, [], "x"⟩] 0
    ⟨1, true, none, 70, []⟩ (by decide) (by decide)
  exact ⟨h.1.trans (by rfl), h.2⟩

/-! ## `common/utils.py`: `calculate_quiz_statistics`

The SQL aggregates `COUNT`, `AVG` and `MAX` run over the non-null values of
the aggregated column and return `NULL` on an empty set; the source then
replaces a falsy aggregate by `0.0` with `or 0.0`. -/

/-- The statistics dictionary returned by `calculate_quiz_statistics`. -/
structure QuizStats where
  quiz_id : ℕ
  total_attempts : ℕ
  average_score : ℚ
  best_score : ℚ
  completion_rate : ℚ
deriving DecidableEq, Repr

/-- SQL `AVG` over a column: mean of the (non-null) values, `NULL` when
there are none. -/
def sqlAvg (l : List ℚ) : Option ℚ :=
  if l.isEmpty then none else some (l.sum / (l.length : ℚ))

/-- `calculate_quiz_statistics` from `src/common/utils.py`: `none` models
the `{"error": "Quiz not found"}` dictionary. -/
def calculate_quiz_statistics (db : DB) (quiz_id : ℕ) : Option QuizStats :=
  match db.quizzes.find? (fun q => q.id == quiz_id) with
  | none => none
  | some _ =>
    let attempts := db.attempts.filter
      (fun a => a.quiz_id == quiz_id && a.completed_at.isSome)
    if attempts.isEmpty then some ⟨quiz_id, 0, 0, 0, 0⟩
    else
      let total_attempts := attempts.length
      let scores := attempts.filterMap (fun a => a.score)
      let average_score := (sqlAvg scores).getD 0
      let best_score := WithBot.unbot' 0 scores.maximum
      let all_attempts := db.attempts.filter (fun a => a.quiz_id == quiz_id)
      let completion_rate :=
        if !all_attempts.isEmpty then
          (total_attempts : ℚ) / (all_attempts.length : ℚ) * 100
        else 0
      some ⟨quiz_id, total_attempts, round2 average_score, round2 best_score,
        round2 completion_rate⟩

/-- C3: for every quiz that exists, the statistics are exactly the database
aggregates: the count of completed attempts, the rounded mean of their
scores (`0` when there are none), the rounded maximum of their scores, and
the rounded percentage of attempts that are completed. -/
theorem quiz_statistics_aggregates (db : DB) (quiz_id : ℕ) (quiz : Quiz)
    (completed : List Attempt) (scores : List ℚ)
    (hq : db.quizzes.find? (fun q => q.id == quiz_id) = some quiz)
    (hc : completed = db.attempts.filter
      (fun a => a.quiz_id == quiz_id && a.completed_at.isSome))
    (hs : scores = completed.filterMap (fun a => a.score)) :
    ∃ s, calculate_quiz_statistics db quiz_id = some s
      ∧ s.total_attempts = completed.length
      ∧ s.average_score
          = (if scores = [] then 0 else round2 (scores.sum / (scores.length : ℚ)))
      ∧ (scores = [] → s.best_score = 0)
      ∧ (∀ m : ℚ, m ∈ scores → (∀ x ∈ scores, x ≤ m) → s.best_score = round2 m)
      ∧ s.completion_rate
          = round2 ((completed.length : ℚ)
              / ((db.attempts.filter (fun a => a.quiz_id == quiz_id)).length : ℚ)
              * 100) := by
  subst hc
  subst hs
  simp only [calculate_quiz_statistics, hq]
  by_cases hemp : (db.attempts.filter
      (fun a => a.quiz_id == quiz_id && a.completed_at.isSome)).isEmpty
  · have hnil := List.isEmpty_iff.mp hemp
    rw [hnil]
    simp only [List.isEmpty_nil, if_true]
    refine ⟨⟨quiz_id, 0, 0, 0, 0⟩, rfl, by simp, by simp, by simp, by simp, ?_⟩
    simp [round2_zero]
  · rw [if_neg (by simp [hemp])]
    refine ⟨_, rfl, rfl, ?_, ?_, ?_, ?_⟩
    · by_cases hsc : (db.attempts.filter
          (fun a => a.quiz_id == quiz_id && a.completed_at.isSome)).filterMap
            (fun a => a.score) = []
      · rw [if_pos hsc]
        simp [hsc, sqlAvg, round2_zero]
      · rw [if_neg hsc]
        simp only [sqlAvg, List.isEmpty_iff]
        rw [if_neg hsc]
        rfl
    · intro hsc
      rw [hsc, show (List.maximum ([] : List ℚ)) = ⊥ from rfl,
        WithBot.unbot'_bot, round2_zero]
    · intro m hm hub
      have hmax : (List.filterMap (fun a => a.score)
          (db.attempts.filter (fun a => a.quiz_id == quiz_id && a.completed_at.isSome))).maximum
            = (m : WithBot ℚ) :=
        List.maximum_eq_coe_iff.mpr ⟨hm, hub⟩
      rw [hmax, WithBot.unbot'_coe]
    · have hall : ¬(db.attempts.filter (fun a => a.quiz_id == quiz_id)).isEmpty = true := by
        intro h
        apply hemp
        rw [List.isEmpty_iff] at h ⊢
        rw [List.filter_eq_nil_iff] at h ⊢
        intro a ha hpa
        exact h a ha (by
          revert hpa
          simp +contextual [Bool.and_eq_true])
      simp [hall]

/-- Quiz row used by the C3 witness database. -/
def quizW : Quiz := ⟨2, true, none, 70, []⟩

/-- Database for the C3 witness: one quiz, one completed attempt with
score 80 and one incomplete attempt. -/
def dbS : DB :=
  ⟨[quizW], [], [⟨1, 2, 0, some 100, some 80, true, some 60⟩,
    ⟨3, 2, 0, none, none, false, none⟩], []⟩

/-- The completed attempts of `dbS` for quiz 2. -/
def completedW : List Attempt := [⟨1, 2, 0, some 100, some 80, true, some 60⟩]

/-- Their scores. -/
def scoresW : List ℚ := [80]

/-- Witness for C3 at a concrete database. -/
theorem quiz_statistics_aggregates_witness :
    ∃ s, calculate_quiz_statistics dbS 2 = some s
      ∧ s.total_attempts = completedW.length
      ∧ s.average_score
          = (if scoresW = [] then 0 else round2 (scoresW.sum / (scoresW.length : ℚ)))
      ∧ (scoresW = [] → s.best_score = 0)
      ∧ (∀ m : ℚ, m ∈ scoresW → (∀ x ∈ scoresW, x ≤ m) → s.best_score = round2 m)
      ∧ s.completion_rate
          = round2 ((completedW.length : ℚ)
              / ((dbS.attempts.filter (fun a => a.quiz_id == 2)).length : ℚ)
              * 100) :=
  quiz_statistics_aggregates dbS 2 quizW completedW scoresW
    (by decide) (by decide) (by decide)

/-! ## `common/permissions.py`

Each permission class becomes a `Bool`-valued function.  Besides the
request (and, for object permissions, the target object) every function is
given the ambient clock `now` and the stored state `db` that the framework
makes reachable from a handler, so that dependence on them is a provable or
refutable statement. -/

/-- The attributes of `request.user` that the permission classes read.
`userprofile_role` / `profile_role` are `none` when the user has no
`userprofile` / `profile` related object (`hasattr` is false). -/
structure UserRec where
  is_authenticated : Bool
  is_staff : Bool
  id : ℕ
  userprofile_role : Option String
  profile_role : Option String
deriving DecidableEq, Repr

/-- The attributes of the request that the permission classes read. -/
structure Request where
  method : String
  user : UserRec
deriving DecidableEq, Repr

/-- `rest_framework.permissions.SAFE_METHODS`. -/
def SAFE_METHODS : List String := ["GET", "HEAD", "OPTIONS"]

/-- Owner attributes of a target object for `IsOwnerOrReadOnly`; a field is
`none` when the object has no such attribute. -/
structure OwnedObj where
  user_id : Option ℕ
  owner_id : Option ℕ
  created_by_id : Option ℕ
deriving DecidableEq, Repr

/-- A course related object; `enrolled_users` is `none` when the course has
no such attribute. -/
structure CourseRec where
  enrolled_users : Option (List ℕ)
deriving DecidableEq, Repr

/-- The attributes of a target object read by `HasQuizAccess`; each field is
`none` when the attribute is absent (or, for the nullable ones, null). -/
structure AccessObj where
  is_active : Option Bool
  expires_at : Option ℤ
  starts_at : Option ℤ
  course : Option CourseRec
deriving DecidableEq, Repr

/-- `IsAdminUser.has_permission`. -/
def isAdminUser (req : Request) (now : ℤ) (db : DB) : Bool :=
  req.user.is_authenticated &&
    (req.user.is_staff ||
      (match req.user.userprofile_role with
        | some role => role == "admin"
        | none => false))

/-- `IsAdminOnly.has_permission`. -/
def isAdminOnly (req : Request) (now : ℤ) (db : DB) : Bool :=
  req.user.is_authenticated &&
    (req.user.is_staff ||
      (match req.user.profile_role with
        | some role => role == "admin"
        | none => false))

/-- `IsOwnerOrReadOnly.has_object_permission`: read access for anyone,
write access for the owner under the first owner-like attribute found. -/
def isOwnerOrReadOnly (req : Request) (obj : OwnedObj) (now : ℤ) (db : DB) : Bool :=
  if SAFE_METHODS.contains req.method then true
  else
    match obj.user_id with
    | some uid => uid == req.user.id
    | none =>
      match obj.owner_id with
      | some uid => uid == req.user.id
      | none =>
        match obj.created_by_id with
        | some uid => uid == req.user.id
        | none => false

/-- `IsTeacherOrReadOnly.has_permission`. -/
def isTeacherOrReadOnly (req : Request) (now : ℤ) (db : DB) : Bool :=
  if SAFE_METHODS.contains req.method then req.user.is_authenticated
  else
    req.user.is_authenticated &&
      (match req.user.profile_role with
        | some role => role == "teacher" || role == "admin"
        | none => false)

/-- `IsTeacherOnly.has_permission`. -/
def isTeacherOnly (req : Request) (now : ℤ) (db : DB) : Bool :=
  req.user.is_authenticated &&
    (match req.user.profile_role with
      | some role => role == "teacher"
      | none => false)

/-- `IsStudentOrReadOnly.has_permission`. -/
def isStudentOrReadOnly (req : Request) (now : ℤ) (db : DB) : Bool :=
  if SAFE_METHODS.contains req.method then true
  else
    req.user.is_authenticated &&
      (match req.user.profile_role with
        | some role => role == "student"
        | none => false)

/-- `IsStudentOnly.has_permission`. -/
def isStudentOnly (req : Request) (now : ℤ) (db : DB) : Bool :=
  req.user.is_authenticated &&
    (match req.user.profile_role with
      | some role => role == "student"
      | none => false)

/-- `HasQuizAccess.has_object_permission`.  The final prerequisites branch
of the source is a `pass` and cannot affect the result. -/
def hasQuizAccess (req : Request) (obj : AccessObj) (now : ℤ) (db : DB) : Bool :=
  if !req.user.is_authenticated then false
  else if (match req.user.profile_role with
      | some role => role == "admin" || role == "teacher"
      | none => false) then true
  else if obj.is_active == some false then false
  else if (match obj.expires_at with
      | some t => decide (now > t)
      | none => false) then false
  else if (match obj.starts_at with
      | some t => decide (now < t)
      | none => false) then false
  else if (match obj.course with
      | some c =>
        match c.enrolled_users with
        | some enrolled => !(enrolled.contains req.user.id)
        | none => false
      | none => false) then false
  else true

/-- The `AccessObj` view of an actual `Quiz` row: the Quiz model has no
`expires_at`, `starts_at` or `course` attribute. -/
def quizAccessObj (q : Quiz) : AccessObj := ⟨some q.is_active, none, none, none⟩

/-- `CanSubmitQuiz.has_permission`: resolves the quiz id from the URL
kwargs or the request data (Python `or`, so a `0` kwarg falls through),
loads the quiz, delegates to `HasQuizAccess`, then rejects when a completed
attempt exists or an active attempt has exceeded the time limit. -/
def canSubmitQuiz (req : Request) (kwargs_quiz_id data_quiz_id : Option ℕ)
    (now : ℤ) (db : DB) : Bool :=
  if !req.user.is_authenticated then false
  else
    let quiz_id : Option ℕ :=
      match kwargs_quiz_id with
      | some k => if k != 0 then some k else data_quiz_id
      | none => data_quiz_id
    match quiz_id with
    | none => false
    | some 0 => false
    | some qid =>
      match db.quizzes.find? (fun q => q.id == qid) with
      | none => false
      | some quiz =>
        if !(hasQuizAccess req (quizAccessObj quiz) now db) then false
        else if (db.attempts.find? (fun a =>
            a.user_id == req.user.id && a.quiz_id == qid && a.completed_at.isSome)).isSome
          then false
        else
          match db.attempts.find? (fun a =>
              a.user_id == req.user.id && a.quiz_id == qid && a.completed_at.isNone) with
          | some a =>
            match quiz.time_limit with
            | some tl =>
              if tl != 0 && decide (now - a.started_at > tl * 60) then false else true
            | none => true
          | none => true

/-- Student request used by the C4 counterexample. -/
def reqC : Request := ⟨"POST", ⟨true, false, 9, none, some "student"⟩⟩

/-- Database with quiz 1 and no attempts. -/
def dbA : DB := ⟨[⟨1, true, none, 70, []⟩], [9], [], []⟩

/-- The same database after user 9 completed an attempt on quiz 1. -/
def dbB : DB :=
  ⟨[⟨1, true, none, 70, []⟩], [9], [⟨9, 1, 0, some 5, some 100, true, some 5⟩], []⟩

/-- Counterexample for C4 as frozen: `CanSubmitQuiz` is not computed from
attribute lookups on the request, user and target object alone — with the
identical request, quiz and clock it answers differently on two stored
states (no completed attempt vs. a completed attempt). -/
theorem canSubmitQuiz_depends_on_stored_state :
    canSubmitQuiz reqC (some 1) none 0 dbA = true
      ∧ canSubmitQuiz reqC (some 1) none 0 dbB = false := by
  decide

/-- C4 (amended): every permission check returns a boolean and mutates
nothing; the seven role/ownership classes are computed from attribute
lookups on the request, user and target object alone (independent of the
clock and of the stored state), `HasQuizAccess` additionally reads the
clock but not the stored state, and `CanSubmitQuiz` additionally queries
the stored quizzes and attempts. -/
theorem permission_checks_are_attribute_lookups (req : Request) (obj : OwnedObj)
    (aobj : AccessObj) (kq dq : Option ℕ) (now now' : ℤ) (db db' : DB) :
    isAdminUser req now db = isAdminUser req now' db'
    ∧ isAdminOnly req now db = isAdminOnly req now' db'
    ∧ isOwnerOrReadOnly req obj now db = isOwnerOrReadOnly req obj now' db'
    ∧ isTeacherOrReadOnly req now db = isTeacherOrReadOnly req now' db'
    ∧ isTeacherOnly req now db = isTeacherOnly req now' db'
    ∧ isStudentOrReadOnly req now db = isStudentOrReadOnly req now' db'
    ∧ isStudentOnly req now db = isStudentOnly req now' db'
    ∧ hasQuizAccess req aobj now db = hasQuizAccess req aobj now db'
    ∧ (canSubmitQuiz req kq dq now db = true ∨ canSubmitQuiz req kq dq now db = false) := by
  refine ⟨rfl, rfl, rfl, rfl, rfl, rfl, rfl, rfl, ?_⟩
  cases h : canSubmitQuiz req kq dq now db
  · exact Or.inr rfl
  · exact Or.inl rfl

/-! ## `sync/views/sync_views.py`

Every handler is guarded by `IsAuthenticated` and, once authenticated,
returns a hard-coded dictionary without touching stored data.  `β` is the
type of the (ignored) request body and `σ` the type of the stored state. -/

/-- A request to a sync endpoint: the authentication verdict of
`IsAuthenticated` plus an arbitrary body. -/
structure SyncRequest (β : Type) where
  authenticated : Bool
  body : β

/-- An HTTP response with a flat string-to-string JSON body. -/
structure ApiResponse where
  status : ℕ
  body : List (String × String)
deriving DecidableEq, Repr

/-- `SyncView.post`. -/
def syncView_post {β σ : Type} (req : SyncRequest β) (st : σ) : ApiResponse × σ :=
  if !req.authenticated then (⟨403, []⟩, st)
  else (⟨200, [("message", "Data sync endpoint - Dev 3 to implement"),
    ("status", "success")]⟩, st)

/-- `ConflictResolutionView.post`. -/
def conflictResolutionView_post {β σ : Type} (req : SyncRequest β) (st : σ) :
    ApiResponse × σ :=
  if !req.authenticated then (⟨403, []⟩, st)
  else (⟨200, [("message", "Conflict resolution endpoint - Dev 3 to implement"),
    ("status", "success")]⟩, st)

/-- `SyncStatusView.get`. -/
def syncStatusView_get {β σ : Type} (req : SyncRequest β) (st : σ) : ApiResponse × σ :=
  if !req.authenticated then (⟨403, []⟩, st)
  else (⟨200, [("message", "Sync status endpoint - Dev 3 to implement"),
    ("status", "success")]⟩, st)

/-- `OfflineDataView.get`. -/
def offlineDataView_get {β σ : Type} (req : SyncRequest β) (st : σ) : ApiResponse × σ :=
  if !req.authenticated then (⟨403, []⟩, st)
  else (⟨200, [("message", "Get offline data endpoint - Dev 3 to implement"),
    ("status", "success")]⟩, st)

/-- `OfflineDataView.post` (answers HTTP 201). -/
def offlineDataView_post {β σ : Type} (req : SyncRequest β) (st : σ) : ApiResponse × σ :=
  if !req.authenticated then (⟨403, []⟩, st)
  else (⟨201, [("message", "Store offline data endpoint - Dev 3 to implement"),
    ("status", "success")]⟩, st)

/-- `SyncHistoryView.get`. -/
def syncHistoryView_get {β σ : Type} (req : SyncRequest β) (st : σ) : ApiResponse × σ :=
  if !req.authenticated then (⟨403, []⟩, st)
  else (⟨200, [("message", "Sync history endpoint - Dev 3 to implement"),
    ("status", "success")]⟩, st)

/-- `ForceSyncView.post`. -/
def forceSyncView_post {β σ : Type} (req : SyncRequest β) (st : σ) : ApiResponse × σ :=
  if !req.authenticated then (⟨403, []⟩, st)
  else (⟨200, [("message", "Force sync endpoint - Dev 3 to implement"),
    ("status", "success")]⟩, st)

/-- `SyncSettingsView.get`. -/
def syncSettingsView_get {β σ : Type} (req : SyncRequest β) (st : σ) : ApiResponse × σ :=
  if !req.authenticated then (⟨403, []⟩, st)
  else (⟨200, [("message", "Get sync settings endpoint - Dev 3 to implement"),
    ("status", "success")]⟩, st)

/-- `SyncSettingsView.post`. -/
def syncSettingsView_post {β σ : Type} (req : SyncRequest β) (st : σ) : ApiResponse × σ :=
  if !req.authenticated then (⟨403, []⟩, st)
  else (⟨200, [("message", "Update sync settings endpoint - Dev 3 to implement"),
    ("status", "success")]⟩, st)

/-- C5: on every authenticated request, whatever the body and whatever the
stored state, each sync handler returns its fixed constant response —
containing `'status': 'success'` and a fixed message, with HTTP 200 (201
for `OfflineDataView.post`) — and leaves the stored state unchanged. -/
theorem sync_views_are_stubs {β σ : Type} (req : SyncRequest β) (st : σ)
    (hauth : req.authenticated = true) :
    syncView_post req st
        = (⟨200, [("message", "Data sync endpoint - Dev 3 to implement"),
            ("status", "success")]⟩, st)
    ∧ conflictResolutionView_post req st
        = (⟨200, [("message", "Conflict resolution endpoint - Dev 3 to implement"),
            ("status", "success")]⟩, st)
    ∧ syncStatusView_get req st
        = (⟨200, [("message", "Sync status endpoint - Dev 3 to implement"),
            ("status", "success")]⟩, st)
    ∧ offlineDataView_get req st
        = (⟨200, [("message", "Get offline data endpoint - Dev 3 to implement"),
            ("status", "success")]⟩, st)
    ∧ offlineDataView_post req st
        = (⟨201, [("message", "Store offline data endpoint - Dev 3 to implement"),
            ("status", "success")]⟩, st)
    ∧ syncHistoryView_get req st
        = (⟨200, [("message", "Sync history endpoint - Dev 3 to implement"),
            ("status", "success")]⟩, st)
    ∧ forceSyncView_post req st
        = (⟨200, [("message", "Force sync endpoint - Dev 3 to implement"),
            ("status", "success")]⟩, st)
    ∧ syncSettingsView_get req st
        = (⟨200, [("message", "Get sync settings endpoint - Dev 3 to implement"),
            ("status", "success")]⟩, st)
    ∧ syncSettingsView_post req st
        = (⟨200, [("message", "Update sync settings endpoint - Dev 3 to implement"),
            ("status", "success")]⟩, st) := by
  refine ⟨?_, ?_, ?_, ?_, ?_, ?_, ?_, ?_, ?_⟩ <;>
    simp [syncView_post, conflictResolutionView_post, syncStatusView_get,
      offlineDataView_get, offlineDataView_post, syncHistoryView_get,
      forceSyncView_post, syncSettingsView_get, syncSettingsView_post, hauth]

/-- Witness for C5 at a concrete request body and state. -/
theorem sync_views_are_stubs_witness :
    (⟨true, 42⟩ : SyncRequest ℕ).authenticated = true
      ∧ syncView_post (⟨true, 42⟩ : SyncRequest ℕ) (7 : ℕ)
          = (⟨200, [("message", "Data sync endpoint - Dev 3 to implement"),
              ("status", "success")]⟩, 7) :=
  ⟨rfl, (sync_views_are_stubs (⟨true, 42⟩ : SyncRequest ℕ) (7 : ℕ) rfl).1⟩

end EduPulse
